import Mathlib

/-!
Verification of the PM2.5 wildfire health-impact application.

The repository's health-impact attribution engine (concentration-response
evaluator, excess-mortality / YLL calculator, decomposition analyzer) is a
backend service whose numerical formulas are documented in the repository
(`Methodology.js`, the backend API documentation) and consumed by the
frontend components; the backend implementation itself is not among the
files under verification, so those components are modelled from the
specification, as marked on each definition.  The AQI conversion utility
`pm25ToAqiInfo` is present in `src/utils/aqi.js` and is embedded directly
from that source.  Real-valued quantities are modelled with `ℚ` where the
code only uses field arithmetic, and with `ℝ` where the concentration-
response formulas use `exp`/`log`.
-/

namespace WildfireHmei

/-! ### AQI utility, embedded from `src/utils/aqi.js` -/

/-- One EPA PM2.5 AQI breakpoint row, as in the `AQI_BREAKPOINTS` constant
of `src/utils/aqi.js`. -/
structure Breakpoint where
  pmLow : ℚ
  pmHigh : ℚ
  aqiLow : ℚ
  aqiHigh : ℚ
  category : String
  color : String
deriving Repr, DecidableEq

/-- The `AQI_BREAKPOINTS` table of `src/utils/aqi.js`, verbatim. -/
def AQI_BREAKPOINTS : List Breakpoint :=
  [ ⟨0, 9, 0, 50, "Good", "#00e400"⟩,
    ⟨91/10, 354/10, 51, 100, "Moderate", "#ffff00"⟩,
    ⟨355/10, 554/10, 101, 150, "Unhealthy for SG", "#ff7e00"⟩,
    ⟨555/10, 1254/10, 151, 200, "Unhealthy", "#ff0000"⟩,
    ⟨1255/10, 2254/10, 201, 300, "Very Unhealthy", "#8f3f97"⟩,
    ⟨2255/10, 5004/10, 301, 500, "Hazardous", "#7e0023"⟩ ]

/-- Input to `pm25ToAqiInfo`: the JavaScript function first tests
`pm25 == null || isNaN(pm25)`, which catches exactly `null`, `undefined`
and `NaN`; every other input is a finite number, modelled as a rational. -/
inductive Pm25Input where
  | invalid : Pm25Input
  | val : ℚ → Pm25Input
deriving Repr, DecidableEq

/-- Result record of `pm25ToAqiInfo`: the `aqi`, `category` and `color`
fields of the returned object (`aqi: null` is `none`). -/
structure AqiInfo where
  aqi : Option ℚ
  category : String
  color : String
deriving Repr, DecidableEq

/-- JavaScript `Math.round` on exact rationals: round half away from zero
does not matter here because `Math.round` rounds half toward `+∞`, i.e.
`⌊x + 1/2⌋`. -/
def jsRound (x : ℚ) : ℚ := (⌊x + 1/2⌋ : ℤ)

/-- The truncation `Math.floor(pm25 * 10) / 10` performed by
`pm25ToAqiInfo` before the breakpoint scan. -/
def truncate1 (pm25 : ℚ) : ℚ := ((⌊pm25 * 10⌋ : ℤ) : ℚ) / 10

/-- The in-order scan of the `for`-loop in `pm25ToAqiInfo`: the first
breakpoint row with `Cp >= bp.pmLow && Cp <= bp.pmHigh`, if any. -/
def aqiLookup (Cp : ℚ) : Option Breakpoint :=
  AQI_BREAKPOINTS.find? (fun bp => decide (bp.pmLow ≤ Cp ∧ Cp ≤ bp.pmHigh))

/-- The body of `pm25ToAqiInfo` for a finite numeric input: truncate to
one decimal, scan the breakpoints, apply the EPA interpolation formula on
a hit, and fall through to `aqi: 500` with the last (Hazardous) row's
category and color when no row matches. -/
def pm25ValInfo (pm25 : ℚ) : AqiInfo :=
  match aqiLookup (truncate1 pm25) with
  | some bp =>
    ⟨some (jsRound ((bp.aqiHigh - bp.aqiLow) / (bp.pmHigh - bp.pmLow)
        * (truncate1 pm25 - bp.pmLow) + bp.aqiLow)), bp.category, bp.color⟩
  | none =>
    let last := AQI_BREAKPOINTS.getLastD ⟨0, 0, 0, 0, "", ""⟩
    ⟨some 500, last.category, last.color⟩

/-- Embedded from `pm25ToAqiInfo` in `src/utils/aqi.js`: null-ish and NaN
inputs return the Unknown record; every other input goes through the
truncation, breakpoint scan and fallback of `pm25ValInfo`. -/
def pm25ToAqiInfo : Pm25Input → AqiInfo
  | .invalid => ⟨none, "Unknown", "#cccccc"⟩
  | .val pm25 => pm25ValInfo pm25

/-! ### Life-Table Reference -/

/-- Modelled from the spec: the static Life-Table Reference (the backend
implementation of the engine is not among the files under verification).
The age-group to remaining-life-expectancy-at-death mapping is taken
verbatim from the repository's backend API documentation (Life Expectancy
Estimates, US averages). -/
def LIFE_EXPECTANCY : List (String × ℚ) :=
  [ ("0-4", 80), ("5-9", 75), ("10-14", 70), ("15-19", 65),
    ("20-24", 60), ("25-29", 55), ("30-34", 50), ("35-39", 45),
    ("40-44", 40), ("45-49", 35), ("50-54", 30), ("55-59", 25),
    ("60-64", 20), ("65-69", 15), ("70-74", 10), ("75-79", 7),
    ("80-84", 5), ("85+", 3) ]

/-- Modelled from the spec: lookup into the static Life-Table Reference. -/
def life_expectancy_at_death (age_group : String) : ℚ :=
  ((LIFE_EXPECTANCY.lookup age_group).getD 0)

/-! ### Excess-Mortality and YLL Calculator (spec section 4.2) -/

/-- Modelled from the spec: the attributable fraction of the excess-
mortality calculator, `AF = (HR - 1) / HR` (the backend calculator is not
among the files under verification; the spec fixes this form of the
formula and flags the division-free variant shown in `Methodology.js` as
an open question). -/
def attributable_fraction (hr : ℚ) : ℚ := (hr - 1) / hr

/-- Modelled from the spec: `compute_excess(population, baseline_rate,
relative_risk) = baseline_rate × AF × population`. -/
def compute_excess (population baseline_rate relative_risk : ℚ) : ℚ :=
  baseline_rate * attributable_fraction relative_risk * population

/-- Modelled from the spec: `compute_yll(excess_count, age_group) =
excess_count × life_expectancy_at_death(age_group)`. -/
def compute_yll (excess_count : ℚ) (age_group : String) : ℚ :=
  excess_count * life_expectancy_at_death age_group

/-- Modelled from the spec: the engine's error taxonomy (section 7). -/
inductive EngineError where
  | invalidInputError : EngineError
  | missingCoefficientError : EngineError
  | unsupportedModelError : EngineError
deriving Repr, DecidableEq

/-- Output record of one checked calculator invocation. -/
structure CalcOutput where
  excess : ℚ
  yll : ℚ
deriving Repr, DecidableEq

/-- Modelled from the spec: the checked entry point of the excess-
mortality calculator.  Negative population or baseline rate fails with
`InvalidInputError` and produces no result; zero population is valid and
yields zero excess and zero YLL through the formulas. -/
def run_calculator (population baseline_rate relative_risk : ℚ)
    (age_group : String) : Except EngineError CalcOutput :=
  if population < 0 ∨ baseline_rate < 0 then
    .error .invalidInputError
  else
    .ok ⟨compute_excess population baseline_rate relative_risk,
         compute_yll (compute_excess population baseline_rate relative_risk) age_group⟩

/-! ### Decomposition Analyzer (spec section 4.3) -/

/-- Modelled from the spec: the per-age-group bundle consumed by
`decompose` — base-year (index 0) and comparison-year (index 1)
population, baseline mortality rate and attributable fraction. -/
structure AgeRow where
  age_group : String
  pop0 : ℚ
  y0 : ℚ
  af0 : ℚ
  pop1 : ℚ
  y1 : ℚ
  af1 : ℚ
deriving Repr, DecidableEq

/-- Modelled from the spec: the `DecompositionResult` record, extended
with the per-age-group `DataQualityWarning` list that section 7 requires
for dropped zero-denominator terms. -/
structure DecompositionResult where
  population_growth : ℚ
  population_ageing : ℚ
  baseline_mortality_change : ℚ
  exposure_change : ℚ
  total_change : ℚ
  warnings : List String
deriving Repr, DecidableEq

/-- Total base-year population over all age groups. -/
def sumPop0 (rows : List AgeRow) : ℚ := (rows.map (fun r => r.pop0)).sum

/-- Total comparison-year population over all age groups. -/
def sumPop1 (rows : List AgeRow) : ℚ := (rows.map (fun r => r.pop1)).sum

/-- Modelled from the spec: one age group's summand of term A
(population growth), `(pop0_a / Σpop0) · Σpop1 · y0_a · AF0_a`. -/
def termA_contrib (P0 P1 : ℚ) (r : AgeRow) : ℚ :=
  r.pop0 / P0 * P1 * r.y0 * r.af0

/-- Modelled from the spec: one age group's summand of term B
(population ageing), `(pop1_a / Σpop1) · y0_a · AF0_a · (pop1_a / pop0_a)`,
dropped to zero when the denominator `pop0_a` is zero. -/
def termB_contrib (P1 : ℚ) (r : AgeRow) : ℚ :=
  if r.pop0 = 0 then 0 else r.pop1 / P1 * r.y0 * r.af0 * (r.pop1 / r.pop0)

/-- Modelled from the spec: one age group's summand of term C
(baseline mortality change), `(pop1_a / Σpop1) · y1_a · AF0_a · (y1_a / y0_a)`,
dropped to zero when the denominator `y0_a` is zero. -/
def termC_contrib (P1 : ℚ) (r : AgeRow) : ℚ :=
  if r.y0 = 0 then 0 else r.pop1 / P1 * r.y1 * r.af0 * (r.y1 / r.y0)

/-- Modelled from the spec: one age group's summand of term D
(exposure change), `(pop1_a / Σpop1) · y1_a · AF1_a · (AF1_a / AF0_a)`,
dropped to zero when the denominator `AF0_a` is zero. -/
def termD_contrib (P1 : ℚ) (r : AgeRow) : ℚ :=
  if r.af0 = 0 then 0 else r.pop1 / P1 * r.y1 * r.af1 * (r.af1 / r.af0)

/-- Modelled from the spec: the `DataQualityWarning` messages emitted for
one age group whose zero base-year denominators drop a summand from terms
B, C or D. -/
def rowWarnings (r : AgeRow) : List String :=
  (if r.pop0 = 0 then
    ["DataQualityWarning: age group " ++ r.age_group ++
      " dropped from population_ageing term, zero base-year population"] else []) ++
  (if r.y0 = 0 then
    ["DataQualityWarning: age group " ++ r.age_group ++
      " dropped from baseline_mortality_change term, zero base-year mortality rate"] else []) ++
  (if r.af0 = 0 then
    ["DataQualityWarning: age group " ++ r.age_group ++
      " dropped from exposure_change term, zero base-year attributable fraction"] else [])

/-- Modelled from the spec: the four-factor decomposition analyzer.  Each
term is the sum over age groups of its summand, `total_change` is the sum
of the four terms (the defining identity, by construction), zero-
denominator age groups contribute zero to the affected term and emit a
`DataQualityWarning`, and a result is always produced. -/
def decompose (rows : List AgeRow) : DecompositionResult :=
  let P0 := sumPop0 rows
  let P1 := sumPop1 rows
  let A := (rows.map (termA_contrib P0 P1)).sum
  let B := (rows.map (termB_contrib P1)).sum
  let C := (rows.map (termC_contrib P1)).sum
  let D := (rows.map (termD_contrib P1)).sum
  ⟨A, B, C, D, A + B + C + D, (rows.map rowWarnings).flatten⟩

/-! ### Concentration-Response Evaluator (spec section 4.1) -/

/-- Modelled from the spec: one binned concentration-response coefficient
record (age-group-specific bin bounds and coefficient). -/
structure BinCoef where
  lower : ℝ
  upper : ℝ
  coefficient : ℝ

/-- Modelled from the spec: the tagged model variant dispatched by the
evaluator — a continuous GEMM-style hazard-ratio model with age-group
coefficients `theta`, `alpha`, a minimum-risk threshold and an injectable
shaping function `omega`, or a binned log-linear model over coefficient
records (covariate and fixed-effect terms are zero in a pure attribution
computation, as the spec documents). -/
inductive CRModel where
  | gemm (theta alpha tmrel : ℝ) (omega : ℝ → ℝ) : CRModel
  | binned (tmrel : ℝ) (coefs : List BinCoef) : CRModel

/-- Modelled from the spec: `evaluate(concentration, age_group, model) →
relative_risk`.  Concentration below the minimum-risk threshold is clamped
to zero exposure; the GEMM variant returns
`exp(θ · log(1 + z/α) · ω(z))` and the binned variant exponentiates the
sum of bin-indicator-weighted coefficients. -/
noncomputable def evaluate (m : CRModel) (concentration : ℝ) : ℝ :=
  match m with
  | .gemm theta alpha tmrel omega =>
    let z := max 0 (concentration - tmrel)
    Real.exp (theta * Real.log (1 + z / alpha) * omega z)
  | .binned tmrel coefs =>
    let z := max 0 (concentration - tmrel)
    Real.exp ((coefs.map (fun b => if b.lower < z ∧ z ≤ b.upper then b.coefficient else 0)).sum)

/-- Modelled from the spec: attributable fraction of a real-valued hazard
ratio, the `ℝ`-side of `attributable_fraction` used where the evaluator's
transcendental output enters the calculator. -/
noncomputable def afR (hr : ℝ) : ℝ := (hr - 1) / hr

/-- Modelled from the spec: an `ExposureRecord`'s three concentrations. -/
structure ExposureRecord where
  total_concentration : ℝ
  fire_concentration : ℝ
  nonfire_concentration : ℝ

/-- Modelled from the spec: excess mortality for one exposure source,
obtained by evaluating the concentration-response function on that
source's concentration. -/
noncomputable def excess_for_source (m : CRModel) (population baseline_rate conc : ℝ) : ℝ :=
  baseline_rate * afR (evaluate m conc) * population

/-- The three per-source excess figures of an `ExcessMortalityResult`. -/
structure SourceSplitResult where
  excess_total : ℝ
  excess_fire : ℝ
  excess_nonfire : ℝ

/-- Modelled from the spec: the calculator's per-source split — the
concentration-response function is evaluated separately on the total, fire
and non-fire concentrations; the total is never assembled from the two
parts. -/
noncomputable def compute_split (m : CRModel) (population baseline_rate : ℝ)
    (e : ExposureRecord) : SourceSplitResult :=
  ⟨excess_for_source m population baseline_rate e.total_concentration,
   excess_for_source m population baseline_rate e.fire_concentration,
   excess_for_source m population baseline_rate e.nonfire_concentration⟩

/-! ### Sample inputs used by the witness theorems -/

/-- A two-age-group decomposition input with every base-year denominator
nonzero. -/
def sampleRows : List AgeRow :=
  [ ⟨"65-69", 100, 1/100, 1/21, 120, 1/100, 1/21⟩,
    ⟨"70-74", 200, 1/50, 1/21, 180, 1/50, 1/11⟩ ]

/-- A decomposition input whose first age group has zero base-year
population. -/
def sampleRowsZero : List AgeRow :=
  [ ⟨"0-4", 0, 1/100, 1/21, 50, 1/100, 1/21⟩,
    ⟨"65-69", 100, 1/100, 1/21, 120, 1/100, 1/21⟩ ]

/-! ### Helper lemmas on the decomposition analyzer -/

theorem decompose_population_growth (rows : List AgeRow) :
    (decompose rows).population_growth =
      (rows.map (termA_contrib (sumPop0 rows) (sumPop1 rows))).sum := rfl

theorem decompose_population_ageing (rows : List AgeRow) :
    (decompose rows).population_ageing =
      (rows.map (termB_contrib (sumPop1 rows))).sum := rfl

theorem decompose_baseline_change (rows : List AgeRow) :
    (decompose rows).baseline_mortality_change =
      (rows.map (termC_contrib (sumPop1 rows))).sum := rfl

theorem decompose_exposure_change (rows : List AgeRow) :
    (decompose rows).exposure_change =
      (rows.map (termD_contrib (sumPop1 rows))).sum := rfl

theorem decompose_total (rows : List AgeRow) :
    (decompose rows).total_change =
      (decompose rows).population_growth + (decompose rows).population_ageing +
        (decompose rows).baseline_mortality_change + (decompose rows).exposure_change := rfl

theorem decompose_warnings (rows : List AgeRow) :
    (decompose rows).warnings = (rows.map rowWarnings).flatten := rfl

/-! ### Claim theorems -/

/-- C1: for every `DecompositionResult` produced by `decompose`, the four
contribution terms sum to `total_change` — exactly, hence in particular
within the 1e-6 relative floating-point tolerance the spec allows. -/
theorem decompose_identity (rows : List AgeRow) :
    (decompose rows).population_growth + (decompose rows).population_ageing +
        (decompose rows).baseline_mortality_change + (decompose rows).exposure_change =
      (decompose rows).total_change ∧
    |(decompose rows).population_growth + (decompose rows).population_ageing +
        (decompose rows).baseline_mortality_change + (decompose rows).exposure_change -
        (decompose rows).total_change| ≤
      1/1000000 * |(decompose rows).total_change| := by
  refine ⟨(decompose_total rows).symm, ?_⟩
  rw [(decompose_total rows).symm]
  simp only [sub_self, abs_zero]
  positivity

/-- C2: `compute_excess` returns `baseline_rate × AF × population` with
`AF = (HR − 1)/HR`; on the spec's concrete scenario (baseline rate 0.0005,
HR 1.05, population 100000) the attributable fraction is exactly `1/21`
(0.047619…) and the excess is exactly `50/21` deaths/year, which is 2.381
to the nearest thousandth. -/
theorem compute_excess_formula :
    (∀ population baseline_rate hr : ℚ,
        compute_excess population baseline_rate hr =
          baseline_rate * ((hr - 1) / hr) * population) ∧
    attributable_fraction (21/20) = 1/21 ∧
    compute_excess 100000 (1/2000) (21/20) = 50/21 ∧
    |(50/21 : ℚ) - 2381/1000| < 1/2000 := by
  refine ⟨fun p r hr => rfl, by norm_num [attributable_fraction],
    by norm_num [compute_excess, attributable_fraction], by norm_num [abs_lt]⟩

/-- C5: under nonzero base-year denominators, `decompose` computes exactly
the four sums over age groups stated in the spec (base-year index 0,
comparison-year index 1), and `total_change` is their sum. -/
theorem decompose_computes_spec_sums (rows : List AgeRow)
    (h : ∀ r ∈ rows, r.pop0 ≠ 0 ∧ r.y0 ≠ 0 ∧ r.af0 ≠ 0) :
    (decompose rows).population_growth =
      (rows.map (fun r => r.pop0 / sumPop0 rows * sumPop1 rows * r.y0 * r.af0)).sum ∧
    (decompose rows).population_ageing =
      (rows.map (fun r => r.pop1 / sumPop1 rows * r.y0 * r.af0 * (r.pop1 / r.pop0))).sum ∧
    (decompose rows).baseline_mortality_change =
      (rows.map (fun r => r.pop1 / sumPop1 rows * r.y1 * r.af0 * (r.y1 / r.y0))).sum ∧
    (decompose rows).exposure_change =
      (rows.map (fun r => r.pop1 / sumPop1 rows * r.y1 * r.af1 * (r.af1 / r.af0))).sum ∧
    (decompose rows).total_change =
      (decompose rows).population_growth + (decompose rows).population_ageing +
        (decompose rows).baseline_mortality_change + (decompose rows).exposure_change := by
  refine ⟨decompose_population_growth rows, ?_, ?_, ?_, decompose_total rows⟩
  · rw [decompose_population_ageing rows]
    exact congrArg List.sum
      (List.map_congr_left fun r hr => if_neg (h r hr).1)
  · rw [decompose_baseline_change rows]
    exact congrArg List.sum
      (List.map_congr_left fun r hr => if_neg (h r hr).2.1)
  · rw [decompose_exposure_change rows]
    exact congrArg List.sum
      (List.map_congr_left fun r hr => if_neg (h r hr).2.2)

/-- C5 witness: the spec sums are realized on a concrete two-age-group
input with nonzero base-year denominators. -/
theorem decompose_computes_spec_sums_witness :
    (decompose sampleRows).population_ageing =
      (sampleRows.map
        (fun r => r.pop1 / sumPop1 sampleRows * r.y0 * r.af0 * (r.pop1 / r.pop0))).sum ∧
    (decompose sampleRows).total_change =
      (decompose sampleRows).population_growth + (decompose sampleRows).population_ageing +
        (decompose sampleRows).baseline_mortality_change +
        (decompose sampleRows).exposure_change := by
  have h := decompose_computes_spec_sums sampleRows
    (by intro r hr; fin_cases hr <;> norm_num)
  exact ⟨h.2.1, h.2.2.2.2⟩

/-- C6: `compute_yll` multiplies the excess count by the static life-
expectancy-at-death of the age group; 50 excess deaths in age group
65-69 (life expectancy 15 years) yield exactly 750 years of life lost. -/
theorem compute_yll_formula :
    (∀ (excess_count : ℚ) (age_group : String),
        compute_yll excess_count age_group =
          excess_count * life_expectancy_at_death age_group) ∧
    life_expectancy_at_death "65-69" = 15 ∧
    compute_yll 50 "65-69" = 750 := by
  have h15 : life_expectancy_at_death "65-69" = 15 := by rfl
  refine ⟨fun e ag => rfl, h15, ?_⟩
  rw [compute_yll, h15]
  norm_num

/-- C7: negative population or baseline rate makes the checked calculator
fail with `InvalidInputError` and produce no result, while zero population
with a valid baseline rate is accepted and yields zero excess and zero
YLL. -/
theorem run_calculator_rejects_negative :
    (∀ (population baseline_rate relative_risk : ℚ) (age_group : String),
        population < 0 ∨ baseline_rate < 0 →
        run_calculator population baseline_rate relative_risk age_group =
          .error .invalidInputError) ∧
    (∀ (baseline_rate relative_risk : ℚ) (age_group : String),
        0 ≤ baseline_rate →
        run_calculator 0 baseline_rate relative_risk age_group = .ok ⟨0, 0⟩) := by
  constructor
  · intro p r hr ag h
    exact if_pos h
  · intro r hr ag h
    have hneg : ¬((0 : ℚ) < 0 ∨ r < 0) := by
      push_neg
      exact ⟨le_refl 0, h⟩
    rw [run_calculator, if_neg hneg]
    simp [compute_excess, compute_yll]

/-- C7 witness: the rejection and the zero-population acceptance realized
on concrete inputs. -/
theorem run_calculator_rejects_negative_witness :
    run_calculator (-1) (1/2000) (21/20) "65-69" = .error .invalidInputError ∧
    run_calculator 0 (1/2000) (21/20) "65-69" = .ok ⟨0, 0⟩ :=
  ⟨run_calculator_rejects_negative.1 (-1) (1/2000) (21/20) "65-69" (Or.inl (by norm_num)),
   run_calculator_rejects_negative.2 (1/2000) (21/20) "65-69" (by norm_num)⟩

/-- C8: an age group with zero base-year population, mortality rate or
attributable fraction contributes zero to the affected decomposition term,
its `DataQualityWarning` messages appear in the result, and `decompose`
still produces a county-level result satisfying the four-term identity
rather than failing. -/
theorem decompose_zero_denominator_warning (rows : List AgeRow) (r : AgeRow)
    (hr : r ∈ rows) (h : r.pop0 = 0 ∨ r.y0 = 0 ∨ r.af0 = 0) :
    (r.pop0 = 0 → termB_contrib (sumPop1 rows) r = 0) ∧
    (r.y0 = 0 → termC_contrib (sumPop1 rows) r = 0) ∧
    (r.af0 = 0 → termD_contrib (sumPop1 rows) r = 0) ∧
    rowWarnings r ≠ [] ∧
    (∀ w ∈ rowWarnings r, w ∈ (decompose rows).warnings) ∧
    (decompose rows).total_change =
      (decompose rows).population_growth + (decompose rows).population_ageing +
        (decompose rows).baseline_mortality_change + (decompose rows).exposure_change := by
  refine ⟨fun h0 => if_pos h0, fun h0 => if_pos h0, fun h0 => if_pos h0, ?_, ?_, decompose_total rows⟩
  · rcases h with h | h | h <;> simp [rowWarnings, h]
  · intro w hw
    rw [decompose_warnings]
    exact List.mem_flatten.mpr ⟨rowWarnings r, List.mem_map_of_mem rowWarnings hr, hw⟩

/-- C8 witness: on a concrete input whose first age group has zero
base-year population, the affected summand is zero, a warning is present,
and the result still satisfies the identity. -/
theorem decompose_zero_denominator_warning_witness :
    termB_contrib (sumPop1 sampleRowsZero)
      ⟨"0-4", 0, 1/100, 1/21, 50, 1/100, 1/21⟩ = 0 ∧
    rowWarnings (⟨"0-4", 0, 1/100, 1/21, 50, 1/100, 1/21⟩ : AgeRow) ≠ [] ∧
    (decompose sampleRowsZero).total_change =
      (decompose sampleRowsZero).population_growth +
        (decompose sampleRowsZero).population_ageing +
        (decompose sampleRowsZero).baseline_mortality_change +
        (decompose sampleRowsZero).exposure_change := by
  have h := decompose_zero_denominator_warning sampleRowsZero
    ⟨"0-4", 0, 1/100, 1/21, 50, 1/100, 1/21⟩ (by simp [sampleRowsZero]) (Or.inl rfl)
  exact ⟨h.1 rfl, h.2.2.2.1, h.2.2.2.2.2⟩

/-- C9: the calculator and the decomposition analyzer are deterministic
pure functions of their input records — two invocations on identical
inputs produce identical outputs. -/
theorem calculator_deterministic (population baseline_rate relative_risk : ℚ)
    (age_group : String) (out1 out2 : Except EngineError CalcOutput)
    (rows : List AgeRow) (d1 d2 : DecompositionResult)
    (h1 : out1 = run_calculator population baseline_rate relative_risk age_group)
    (h2 : out2 = run_calculator population baseline_rate relative_risk age_group)
    (h3 : d1 = decompose rows) (h4 : d2 = decompose rows) :
    out1 = out2 ∧ d1 = d2 :=
  ⟨h1.trans h2.symm, h3.trans h4.symm⟩

/-- C9 witness: two concrete invocations on the same inputs coincide. -/
theorem calculator_deterministic_witness :
    run_calculator 100000 (1/2000) (21/20) "65-69" =
      run_calculator 100000 (1/2000) (21/20) "65-69" ∧
    decompose sampleRows = decompose sampleRows :=
  calculator_deterministic 100000 (1/2000) (21/20) "65-69"
    (run_calculator 100000 (1/2000) (21/20) "65-69")
    (run_calculator 100000 (1/2000) (21/20) "65-69")
    sampleRows (decompose sampleRows) (decompose sampleRows) rfl rfl rfl rfl

/-- C4: for every age-group coefficient set and both model variants, the
evaluator returns relative risk exactly 1 at concentration 0 and at any
concentration at or below the clamp threshold, and the excess-mortality
formula therefore yields 0 at relative risk 1 regardless of baseline rate
or population. -/
theorem evaluate_rr_one_below_threshold :
    (∀ (theta alpha tmrel : ℝ) (omega : ℝ → ℝ), 0 ≤ tmrel →
        evaluate (.gemm theta alpha tmrel omega) 0 = 1) ∧
    (∀ (theta alpha tmrel : ℝ) (omega : ℝ → ℝ) (c : ℝ), c ≤ tmrel →
        evaluate (.gemm theta alpha tmrel omega) c = 1) ∧
    (∀ (tmrel : ℝ) (coefs : List BinCoef) (c : ℝ), c ≤ tmrel →
        (∀ b ∈ coefs, 0 ≤ b.lower) →
        evaluate (.binned tmrel coefs) c = 1) ∧
    (∀ population baseline_rate : ℚ, compute_excess population baseline_rate 1 = 0) := by
  have hgemm : ∀ (theta alpha tmrel : ℝ) (omega : ℝ → ℝ) (c : ℝ), c ≤ tmrel →
      evaluate (.gemm theta alpha tmrel omega) c = 1 := by
    intro theta alpha tmrel omega c hc
    simp only [evaluate]
    rw [max_eq_left (sub_nonpos.mpr hc)]
    simp
  have hbin : ∀ (tmrel : ℝ) (coefs : List BinCoef) (c : ℝ), c ≤ tmrel →
      (∀ b ∈ coefs, 0 ≤ b.lower) → evaluate (.binned tmrel coefs) c = 1 := by
    intro tmrel coefs c hc hb
    simp only [evaluate]
    rw [max_eq_left (sub_nonpos.mpr hc)]
    have hmap : (coefs.map fun b =>
        if b.lower < (0 : ℝ) ∧ (0 : ℝ) ≤ b.upper then b.coefficient else 0) =
        coefs.map fun _ => (0 : ℝ) :=
      List.map_congr_left fun b hbm =>
        if_neg fun hand => absurd hand.1 (not_lt.mpr (hb b hbm))
    rw [hmap]
    simp
  exact ⟨fun theta alpha tmrel omega h0 => hgemm theta alpha tmrel omega 0 (by linarith),
    hgemm, hbin, fun p r => by norm_num [compute_excess, attributable_fraction]⟩

/-- C4 witness: relative risk 1 and zero excess realized on concrete
coefficient records and concentrations. -/
theorem evaluate_rr_one_below_threshold_witness :
    evaluate (.gemm (25/42) (16/10) 5 (fun _ => 1)) 0 = 1 ∧
    evaluate (.gemm (25/42) (16/10) 5 (fun _ => 1)) 3 = 1 ∧
    evaluate (.binned 0 [⟨0, 10, 1/10⟩]) 0 = 1 ∧
    compute_excess 100000 (1/2000) 1 = 0 :=
  ⟨evaluate_rr_one_below_threshold.1 (25/42) (16/10) 5 (fun _ => 1) (by norm_num),
   evaluate_rr_one_below_threshold.2.1 (25/42) (16/10) 5 (fun _ => 1) 3 (by norm_num),
   evaluate_rr_one_below_threshold.2.2.1 0 [⟨0, 10, 1/10⟩] 0 le_rfl
     (by intro b hb; fin_cases hb; norm_num),
   evaluate_rr_one_below_threshold.2.2.2 100000 (1/2000)⟩

/-- C3: the per-source split evaluates the concentration-response function
separately on the total, fire and non-fire concentrations (the total is
not assembled from the parts), and there are valid inputs with
`fire + nonfire = total` on which `excess_fire + excess_nonfire` differs
from `excess_total`, because relative risk is non-linear in
concentration. -/
theorem split_evaluates_sources_nonadditively :
    (∀ (m : CRModel) (population baseline_rate : ℝ) (e : ExposureRecord),
        (compute_split m population baseline_rate e).excess_total =
          excess_for_source m population baseline_rate e.total_concentration ∧
        (compute_split m population baseline_rate e).excess_fire =
          excess_for_source m population baseline_rate e.fire_concentration ∧
        (compute_split m population baseline_rate e).excess_nonfire =
          excess_for_source m population baseline_rate e.nonfire_concentration) ∧
    (∃ (m : CRModel) (population baseline_rate : ℝ) (e : ExposureRecord),
        e.fire_concentration + e.nonfire_concentration = e.total_concentration ∧
        0 < e.fire_concentration ∧ 0 < e.nonfire_concentration ∧
        (compute_split m population baseline_rate e).excess_fire +
            (compute_split m population baseline_rate e).excess_nonfire ≠
          (compute_split m population baseline_rate e).excess_total) := by
  refine ⟨fun m p r e => ⟨rfl, rfl, rfl⟩,
    ⟨.gemm 1 1 0 (fun _ => 1), 100000, 1/1000, ⟨2, 1, 1⟩, by norm_num, by norm_num,
      by norm_num, ?_⟩⟩
  have h1 : evaluate (.gemm 1 1 0 (fun _ => 1)) 1 = 2 := by
    simp only [evaluate]
    rw [sub_zero, max_eq_right (by norm_num : (0:ℝ) ≤ 1)]
    rw [show (1 : ℝ) + 1 / 1 = 2 by norm_num, one_mul, mul_one]
    exact Real.exp_log (by norm_num)
  have h2 : evaluate (.gemm 1 1 0 (fun _ => 1)) 2 = 3 := by
    simp only [evaluate]
    rw [sub_zero, max_eq_right (by norm_num : (0:ℝ) ≤ 2)]
    rw [show (1 : ℝ) + 2 / 1 = 3 by norm_num, one_mul, mul_one]
    exact Real.exp_log (by norm_num)
  simp only [compute_split, excess_for_source]
  rw [h1, h2]
  simp only [afR]
  norm_num

/-- C10: for every negative numeric concentration, `pm25ToAqiInfo` matches
no EPA breakpoint row and falls through to the maximum-severity record
`aqi = 500`, category Hazardous; only the null / undefined / NaN input
yields the Unknown category. -/
theorem pm25_negative_hazardous :
    (∀ q : ℚ, q < 0 →
        pm25ToAqiInfo (.val q) = ⟨some 500, "Hazardous", "#7e0023"⟩) ∧
    (∀ i : Pm25Input, (pm25ToAqiInfo i).category = "Unknown" ↔ i = .invalid) := by
  constructor
  · intro q hq
    have hCp : truncate1 q < 0 := by
      have h10 : (q * 10 : ℚ) < 0 := mul_neg_of_neg_of_pos hq (by norm_num)
      have hfl : (⌊q * 10⌋ : ℤ) < 0 := Int.floor_lt.mpr (by exact_mod_cast h10)
      unfold truncate1
      apply div_neg_of_neg_of_pos _ (by norm_num)
      exact_mod_cast hfl
    have hfind : aqiLookup (truncate1 q) = none := by
      rw [aqiLookup, List.find?_eq_none]
      intro bp hbp
      fin_cases hbp <;> simp only [decide_eq_true_eq] <;> rintro ⟨h1e, -⟩ <;> linarith
    show pm25ValInfo q = _
    unfold pm25ValInfo
    rw [hfind]
    rfl
  · intro i
    constructor
    · intro h
      cases i with
      | invalid => rfl
      | val q =>
        exfalso
        cases hf : aqiLookup (truncate1 q) with
        | none =>
          have hn : pm25ToAqiInfo (.val q) = ⟨some 500, "Hazardous", "#7e0023"⟩ := by
            show pm25ValInfo q = _
            unfold pm25ValInfo
            rw [hf]
            rfl
          rw [hn] at h
          exact absurd h (by decide)
        | some bp =>
          have hcat : (pm25ToAqiInfo (.val q)).category = bp.category := by
            show (pm25ValInfo q).category = _
            unfold pm25ValInfo
            rw [hf]
          rw [hcat] at h
          have hmem : bp ∈ AQI_BREAKPOINTS := List.mem_of_find?_eq_some hf
          fin_cases hmem <;> exact absurd h (by decide)
    · intro h
      rw [h]
      rfl

/-- C10 witness: the hazardous fallback and the Unknown record realized on
concrete inputs. -/
theorem pm25_negative_hazardous_witness :
    pm25ToAqiInfo (.val (-5)) = ⟨some 500, "Hazardous", "#7e0023"⟩ ∧
    (pm25ToAqiInfo .invalid).category = "Unknown" :=
  ⟨pm25_negative_hazardous.1 (-5) (by norm_num),
   (pm25_negative_hazardous.2 .invalid).mpr rfl⟩

end WildfireHmei
